import Mathlib

set_option maxRecDepth 100000
set_option linter.unusedVariables false

/-!
Verification of the `jsonPaymentProtocol` client (`index.js`, exercised by
`examples/rpc-wallet-client.js`).  The development shallowly embeds the
`PaymentProtocol` constructor, its `verifyResponse` method and the four
protocol operations (`getPaymentOptions`, `selectPaymentOption`,
`verifyPaymentRequest`, `sendSignedPayment`).

Modelling conventions:
 * JavaScript strings are Lean `String`s; header maps are association lists
   whose values are either strings or an opaque non-string value carrying
   only its truthiness (`HVal.other`), since the code only ever asks
   `typeof v === 'string'` and `!v` of header values.
 * Thrown JS errors become the `JsError` inductive, one constructor per
   distinct `throw` site (unguarded runtime `TypeError`s included).
 * The Node builtins `JSON.parse`, `JSON.stringify`, `url.parse`,
   `querystring.decode`, `Buffer.from(_, 'hex')` and
   `crypto.createHash('sha256')` are modelled concretely below
   (`JSON.parse` on the integer-numeric fragment of JSON).
 * The HTTPS round trip of `_asyncRequest` is a transport oracle
   `Transport := HttpRequest → Except String RawResponse`, and
   `secp256k1.verify` is an oracle argument
   `List Nat → List Nat → List Nat → Bool` (message, signature, public key
   as byte lists), mirroring the external `secp256k1` module.
-/

/-- JSON values, as produced by the modelled `JSON.parse`. -/
inductive Json where
  | null
  | bool (b : Bool)
  | num (n : Int)
  | str (s : String)
  | arr (elems : List Json)
  | obj (fields : List (String × Json))

/-- Hexadecimal digit value of a character, `none` for non-hex characters. -/
def hexVal (c : Char) : Option Nat :=
  if '0' ≤ c ∧ c ≤ '9' then some (c.toNat - 48)
  else if 'a' ≤ c ∧ c ≤ 'f' then some (c.toNat - 87)
  else if 'A' ≤ c ∧ c ≤ 'F' then some (c.toNat - 55)
  else none

/-- Skip JSON whitespace. -/
def skipWs : List Char → List Char
  | c :: rest => if c = ' ' ∨ c = '\n' ∨ c = '\t' ∨ c = '\r' then skipWs rest else c :: rest
  | [] => []

/-- Parse the remainder of a JSON string literal (opening quote already
consumed), with fuel; returns the decoded string and the rest of the input. -/
def parseStrAux : Nat → List Char → List Char → Option (String × List Char)
  | 0, _, _ => none
  | _ + 1, [], _ => none
  | fuel + 1, c :: rest, acc =>
    if c = '"' then some (String.mk acc.reverse, rest)
    else if c = '\\' then
      match rest with
      | [] => none
      | e :: rest2 =>
        if e = '"' then parseStrAux fuel rest2 ('"' :: acc)
        else if e = '\\' then parseStrAux fuel rest2 ('\\' :: acc)
        else if e = '/' then parseStrAux fuel rest2 ('/' :: acc)
        else if e = 'n' then parseStrAux fuel rest2 ('\n' :: acc)
        else if e = 't' then parseStrAux fuel rest2 ('\t' :: acc)
        else if e = 'r' then parseStrAux fuel rest2 ('\r' :: acc)
        else if e = 'b' then parseStrAux fuel rest2 (Char.ofNat 8 :: acc)
        else if e = 'f' then parseStrAux fuel rest2 (Char.ofNat 12 :: acc)
        else if e = 'u' then
          match rest2 with
          | h1 :: h2 :: h3 :: h4 :: rest3 =>
            match hexVal h1, hexVal h2, hexVal h3, hexVal h4 with
            | some a, some b, some c2, some d =>
              parseStrAux fuel rest3 (Char.ofNat (4096 * a + 256 * b + 16 * c2 + d) :: acc)
            | _, _, _, _ => none
          | _ => none
        else none
    else if c.toNat < 32 then none
    else parseStrAux fuel rest (c :: acc)

/-- Parse a run of decimal digits; returns the value, the digit characters
consumed (for the leading-zero rule) and the rest. -/
def parseDigits : List Char → Nat → List Char → (Nat × List Char × List Char)
  | c :: rest, acc, seen =>
    if '0' ≤ c ∧ c ≤ '9' then parseDigits rest (10 * acc + (c.toNat - 48)) (c :: seen)
    else (acc, seen, c :: rest)
  | [], acc, seen => (acc, seen, [])

/-- Parse a JSON natural-number literal, rejecting leading zeros. -/
def parseNatLit (cs : List Char) : Option (Nat × List Char) :=
  match parseDigits cs 0 [] with
  | (_, [], _) => none
  | (n, seen, rest) =>
    if seen.reverse.head? = some '0' ∧ seen.length > 1 then none
    else some (n, rest)

/-- Parse a comma-separated field list of a JSON object (opening brace
consumed, object known to be nonempty), given a parser for values. -/
def parseFields (parseV : List Char → Option (Json × List Char)) :
    Nat → List Char → Option (List (String × Json) × List Char)
  | 0, _ => none
  | fuel + 1, cs =>
    match skipWs cs with
    | '"' :: rest =>
      match parseStrAux (rest.length + 1) rest [] with
      | none => none
      | some (key, rest2) =>
        match skipWs rest2 with
        | ':' :: rest3 =>
          match parseV rest3 with
          | none => none
          | some (v, rest4) =>
            match skipWs rest4 with
            | ',' :: rest5 =>
              match parseFields parseV fuel rest5 with
              | some (fs, rest6) => some ((key, v) :: fs, rest6)
              | none => none
            | '\x7d' :: rest5 => some ([(key, v)], rest5)
            | _ => none
        | _ => none
    | _ => none

/-- Parse a comma-separated element list of a JSON array (opening bracket
consumed, array known to be nonempty), given a parser for values. -/
def parseElems (parseV : List Char → Option (Json × List Char)) :
    Nat → List Char → Option (List Json × List Char)
  | 0, _ => none
  | fuel + 1, cs =>
    match parseV cs with
    | none => none
    | some (v, rest) =>
      match skipWs rest with
      | ',' :: rest2 =>
        match parseElems parseV fuel rest2 with
        | some (vs, rest3) => some (v :: vs, rest3)
        | none => none
      | ']' :: rest2 => some ([v], rest2)
      | _ => none

/-- Parse one JSON value (integer-numeric fragment), with fuel bounding the
nesting depth. -/
def parseVal : Nat → List Char → Option (Json × List Char)
  | 0, _ => none
  | fuel + 1, cs =>
    match skipWs cs with
    | [] => none
    | c :: rest =>
      if c = '\x7b' then
        match skipWs rest with
        | '\x7d' :: rest2 => some (Json.obj [], rest2)
        | _ =>
          match parseFields (parseVal fuel) (rest.length + 1) rest with
          | some (fs, rest2) => some (Json.obj fs, rest2)
          | none => none
      else if c = '[' then
        match skipWs rest with
        | ']' :: rest2 => some (Json.arr [], rest2)
        | _ =>
          match parseElems (parseVal fuel) (rest.length + 1) rest with
          | some (vs, rest2) => some (Json.arr vs, rest2)
          | none => none
      else if c = '"' then
        match parseStrAux (rest.length + 1) rest [] with
        | some (s, rest2) => some (Json.str s, rest2)
        | none => none
      else if c = 't' then
        match rest with
        | 'r' :: 'u' :: 'e' :: rest2 => some (Json.bool true, rest2)
        | _ => none
      else if c = 'f' then
        match rest with
        | 'a' :: 'l' :: 's' :: 'e' :: rest2 => some (Json.bool false, rest2)
        | _ => none
      else if c = 'n' then
        match rest with
        | 'u' :: 'l' :: 'l' :: rest2 => some (Json.null, rest2)
        | _ => none
      else if c = '-' then
        match parseNatLit rest with
        | some (n, rest2) => some (Json.num (-(n : Int)), rest2)
        | none => none
      else if '0' ≤ c ∧ c ≤ '9' then
        match parseNatLit (c :: rest) with
        | some (n, rest2) => some (Json.num (n : Int), rest2)
        | none => none
      else none

/-- Models the Node builtin `JSON.parse` (restricted to integer numeric
literals): `some` on success, `none` when `JSON.parse` would throw a
`SyntaxError`. -/
def jsonParse (s : String) : Option Json :=
  match parseVal (s.length + 1) s.data with
  | some (j, rest) => if skipWs rest = [] then some j else none
  | none => none

/-- UTF-8 encoding of one character, as byte values. -/
def utf8Bytes (c : Char) : List Nat :=
  let n := c.toNat
  if n < 128 then [n]
  else if n < 2048 then [192 ||| (n >>> 6), 128 ||| (n &&& 63)]
  else if n < 65536 then
    [224 ||| (n >>> 12), 128 ||| ((n >>> 6) &&& 63), 128 ||| (n &&& 63)]
  else
    [240 ||| (n >>> 18), 128 ||| ((n >>> 12) &&& 63),
     128 ||| ((n >>> 6) &&& 63), 128 ||| (n &&& 63)]

/-- UTF-8 byte sequence of a string (the bytes `Buffer`/`crypto` see for a
JS string hashed with the `'utf8'` encoding). -/
def strBytes (s : String) : List Nat :=
  s.data.flatMap utf8Bytes

/-- Truncate to a 32-bit word. -/
def w32 (n : Nat) : Nat := n % 4294967296

/-- Right rotation of a 32-bit word. -/
def rotr (x n : Nat) : Nat := w32 ((x >>> n) ||| (x <<< (32 - n)))

/-- SHA-256 small sigma 0. -/
def ssig0 (x : Nat) : Nat := (rotr x 7) ^^^ (rotr x 18) ^^^ (x >>> 3)

/-- SHA-256 small sigma 1. -/
def ssig1 (x : Nat) : Nat := (rotr x 17) ^^^ (rotr x 19) ^^^ (x >>> 10)

/-- SHA-256 big sigma 0. -/
def bsig0 (x : Nat) : Nat := (rotr x 2) ^^^ (rotr x 13) ^^^ (rotr x 22)

/-- SHA-256 big sigma 1. -/
def bsig1 (x : Nat) : Nat := (rotr x 6) ^^^ (rotr x 11) ^^^ (rotr x 25)

/-- SHA-256 choice function. -/
def chF (x y z : Nat) : Nat := (x &&& y) ^^^ ((4294967295 ^^^ x) &&& z)

/-- SHA-256 majority function. -/
def majF (x y z : Nat) : Nat := (x &&& y) ^^^ (x &&& z) ^^^ (y &&& z)

/-- The 64 SHA-256 round constants. -/
def sha256K : List Nat :=
  [1116352408, 1899447441, 3049323471, 3921009573, 961987163,
   1508970993, 2453635748, 2870763221, 3624381080, 310598401,
   607225278, 1426881987, 1925078388, 2162078206, 2614888103,
   3248222580, 3835390401, 4022224774, 264347078, 604807628,
   770255983, 1249150122, 1555081692, 1996064986, 2554220882,
   2821834349, 2952996808, 3210313671, 3336571891, 3584528711,
   113926993, 338241895, 666307205, 773529912, 1294757372,
   1396182291, 1695183700, 1986661051, 2177026350, 2456956037,
   2730485921, 2820302411, 3259730800, 3345764771, 3516065817,
   3600352804, 4094571909, 275423344, 430227734, 506948616,
   659060556, 883997877, 958139571, 1322822218, 1537002063,
   1747873779, 1955562222, 2024104815, 2227730452, 2361852424,
   2428436474, 2756734187, 3204031479, 3329325298]

/-- Working state of the SHA-256 compression function. -/
structure H8 where
  a : Nat
  b : Nat
  c : Nat
  d : Nat
  e : Nat
  f : Nat
  g : Nat
  h : Nat

/-- Initial SHA-256 hash state. -/
def sha256Init : H8 :=
  ⟨1779033703, 3144134277, 1013904242,
   2773480762, 1359893119, 2600822924,
   528734635, 1541459225⟩

/-- One round of the SHA-256 compression function. -/
def sha256Round (s : H8) (kw : Nat × Nat) : H8 :=
  let t1 := w32 (s.h + bsig1 s.e + chF s.e s.f s.g + kw.1 + kw.2)
  let t2 := w32 (bsig0 s.a + majF s.a s.b s.c)
  ⟨w32 (t1 + t2), s.a, s.b, s.c, w32 (s.d + t1), s.e, s.f, s.g⟩

/-- Group a padded byte list into big-endian 32-bit words. -/
def bytesToWords : List Nat → List Nat
  | b0 :: b1 :: b2 :: b3 :: rest =>
    (b0 <<< 24 ||| b1 <<< 16 ||| b2 <<< 8 ||| b3) :: bytesToWords rest
  | _ => []

/-- Extend a word list by the SHA-256 message schedule recurrence, `n` times. -/
def extendWords : Nat → List Nat → List Nat
  | 0, ws => ws
  | n + 1, ws =>
    let i := ws.length
    let nw := w32 (ssig1 (ws.getD (i - 2) 0) + ws.getD (i - 7) 0 +
                   ssig0 (ws.getD (i - 15) 0) + ws.getD (i - 16) 0)
    extendWords n (ws ++ [nw])

/-- Process one 64-byte block. -/
def sha256Block (s : H8) (block : List Nat) : H8 :=
  let ws := extendWords 48 (bytesToWords block)
  let s2 := (sha256K.zip ws).foldl sha256Round s
  ⟨w32 (s.a + s2.a), w32 (s.b + s2.b), w32 (s.c + s2.c), w32 (s.d + s2.d),
   w32 (s.e + s2.e), w32 (s.f + s2.f), w32 (s.g + s2.g), w32 (s.h + s2.h)⟩

/-- SHA-256 padding: append `0x80`, zeros, and the 64-bit big-endian bit
length. -/
def sha256Pad (msg : List Nat) : List Nat :=
  let l := msg.length
  let zeros := (64 - ((l + 9) % 64)) % 64
  msg ++ [128] ++ List.replicate zeros 0 ++
    ([56, 48, 40, 32, 24, 16, 8, 0].map (fun k => ((8 * l) >>> k) % 256))

/-- Split a byte list into 64-byte chunks (fuel-driven). -/
def chunks64 : Nat → List Nat → List (List Nat)
  | 0, _ => []
  | _ + 1, [] => []
  | fuel + 1, l => l.take 64 :: chunks64 fuel (l.drop 64)

/-- Lowercase hexadecimal digit for a value below 16. -/
def hexDigit (n : Nat) : Char :=
  if n < 10 then Char.ofNat (48 + n) else Char.ofNat (87 + n)

/-- Lowercase 8-hex-digit rendering of a 32-bit word. -/
def wordToHex (n : Nat) : List Char :=
  [28, 24, 20, 16, 12, 8, 4, 0].map (fun k => hexDigit ((n >>> k) &&& 15))

/-- SHA-256 of a byte list, as a lowercase hex string — models
`crypto.createHash('sha256').update(bytes).digest('hex')`. -/
def sha256Hex (msg : List Nat) : String :=
  let blocks := chunks64 (msg.length + 9) (sha256Pad msg)
  let s := blocks.foldl sha256Block sha256Init
  String.mk (([s.a, s.b, s.c, s.d, s.e, s.f, s.g, s.h].map wordToHex).flatten)

/-- SHA-256 hex digest of a JS string hashed with the `'utf8'` encoding —
models `crypto.createHash('sha256').update(rawBody, 'utf8').digest('hex')`. -/
def sha256HexOfString (s : String) : String :=
  sha256Hex (strBytes s)

/-- Lowercase an ASCII letter. -/
def lowerChar (c : Char) : Char :=
  if 'A' ≤ c ∧ c ≤ 'Z' then Char.ofNat (c.toNat + 32) else c

/-- Lowercase a string (ASCII). -/
def lowerStr (s : String) : String :=
  String.mk (s.data.map lowerChar)

/-- Character allowed in a URL scheme by Node's legacy `url.parse`
(`/^([a-z0-9.+-]+:)/i`). -/
def isSchemeChar (c : Char) : Bool :=
  ('a' ≤ lowerChar c ∧ lowerChar c ≤ 'z') ∨ ('0' ≤ c ∧ c ≤ '9') ∨
    c = '.' ∨ c = '+' ∨ c = '-'

/-- Split off a leading `scheme:` from a character list: returns the scheme
characters and the remainder after the colon. -/
def takeScheme : List Char → List Char → Option (List Char × List Char)
  | [], _ => none
  | c :: rest, acc =>
    if c = ':' then (if acc = [] then none else some (acc.reverse, rest))
    else if isSchemeChar c then takeScheme rest (c :: acc)
    else none

/-- Take characters until one of the given delimiters. -/
def takeUntil (delims : List Char) : List Char → List Char
  | [] => []
  | c :: rest => if delims.contains c then [] else c :: takeUntil delims rest

/-- Drop characters until one of the given delimiters (keeping the
delimiter). -/
def dropUntil (delims : List Char) : List Char → List Char
  | [] => []
  | c :: rest => if c ∈ delims then c :: rest else dropUntil delims rest

/-- Drop the userinfo part (`user@`) of an authority, if present. -/
def dropUserinfo (auth : List Char) : List Char :=
  if auth.contains '@' then ((auth.reverse.takeWhile (fun c => c ≠ '@')).reverse) else auth

/-- Hostname part of an authority: strip userinfo and the port. -/
def hostOfAuthority (auth : List Char) : List Char :=
  takeUntil [':'] (dropUserinfo auth)

/-- Query component (text after the first `?`, fragment stripped), or `none`
when there is no `?`. -/
def queryOf (cs : List Char) : Option String :=
  let beforeFrag := takeUntil ['#'] cs
  match dropUntil ['?'] beforeFrag with
  | '?' :: rest => some (String.mk rest)
  | _ => none

/-- Result of the modelled Node legacy `url.parse`: the components the
client reads (`protocol`, `hostname`, `query`). -/
structure ParsedUrl where
  protocol : Option String
  hostname : Option String
  query : Option String

/-- Models the Node builtin `url.parse` for the components the client uses:
`protocol` is the lowercased `scheme:`; `hostname` is present only for
URLs with a `//` authority (lowercased, userinfo and port stripped);
`query` is the text after `?`. -/
def urlParse (u : String) : ParsedUrl :=
  let cs := u.data
  match takeScheme cs [] with
  | none => { protocol := none, hostname := none, query := queryOf cs }
  | some (scheme, rest) =>
    let protocol := lowerStr (String.mk scheme) ++ ":"
    match rest with
    | '/' :: '/' :: rest2 =>
      let authority := takeUntil ['/', '?', '#'] rest2
      { protocol := some protocol,
        hostname := some (lowerStr (String.mk (hostOfAuthority authority))),
        query := queryOf rest2 }
    | _ => { protocol := some protocol, hostname := none, query := queryOf rest }

/-- Percent-decode a query component (`+` becomes a space), as
`querystring.decode` does. -/
def pctDecode : List Char → List Char
  | [] => []
  | '%' :: a :: b :: rest =>
    match hexVal a, hexVal b with
    | some x, some y => Char.ofNat (16 * x + y) :: pctDecode rest
    | _, _ => '%' :: pctDecode (a :: b :: rest)
  | '+' :: rest => ' ' :: pctDecode rest
  | c :: rest => c :: pctDecode rest

/-- Split a character list on a separator character. -/
def splitOnChar (sep : Char) : List Char → List Char → List (List Char)
  | [], acc => [acc.reverse]
  | c :: rest, acc =>
    if c = sep then acc.reverse :: splitOnChar sep rest []
    else splitOnChar sep rest (c :: acc)

/-- Split one `key=value` pair at the first `=` (a pair with no `=` gets the
empty value, as in `querystring`). -/
def splitPair (part : List Char) : String × String :=
  match dropUntil ['='] part with
  | '=' :: v => (String.mk (pctDecode (takeUntil ['='] part)), String.mk (pctDecode v))
  | _ => (String.mk (pctDecode part), "")

/-- Models the Node builtin `querystring.decode`: an association list of
percent-decoded key/value pairs (duplicate keys: first occurrence wins in
lookups below, where `querystring` would build an array). -/
def queryDecode (q : String) : List (String × String) :=
  (splitOnChar '&' q.data []).filterMap
    (fun part => if part = [] then none else some (splitPair part))

/-- First-occurrence lookup in a decoded query map (JS property access). -/
def qGet (m : List (String × String)) (k : String) : Option String :=
  (m.find? (fun p => p.1 = k)).map (fun p => p.2)

/-- A response header value: either a JS string or an opaque non-string
value of which only the truthiness matters to the code. -/
inductive HVal where
  | str (s : String)
  | other (truthy : Bool)

/-- A response header map (JS object, exact-name property access). -/
abbrev Headers := List (String × HVal)

/-- JS property access `headers[name]` (`none` models `undefined`). -/
def hGet (headers : Headers) (name : String) : Option HVal :=
  (headers.find? (fun p => p.1 = name)).map (fun p => p.2)

/-- JS truthiness of a header value. -/
def hvalTruthy : HVal → Bool
  | .str s => s ≠ ""
  | .other t => t

/-- JS truthiness of a possibly-missing header value (`undefined` is
falsy). -/
def optTruthy : Option HVal → Bool
  | none => false
  | some v => hvalTruthy v

/-- A trusted-key record, as in `config.trustedKeys` (`owner`, allowed
`networks`, allowed `domains`, hex `publicKey`). -/
structure KeyData where
  owner : String
  networks : List String
  domains : List String
  publicKey : String

/-- The trusted-keys mapping: identity string to key record. -/
abbrev TrustedKeys := List (String × KeyData)

/-- JS property access `trustedKeys[identity]` by exact string equality. -/
def lookupKey (trustedKeys : TrustedKeys) (identity : String) : Option KeyData :=
  (trustedKeys.find? (fun p => p.1 = identity)).map (fun p => p.2)

/-- The `PaymentProtocol` client object: `this.options` and
`this.trustedKeys`. -/
structure PaymentProtocol where
  options : List (String × Json)
  trustedKeys : TrustedKeys

/-- Models `Object.assign(\x7b\x7d, base, overrides)`: fields of `base` not
overridden, then the overriding fields. -/
def objectAssign (base overrides : List (String × Json)) : List (String × Json) :=
  base.filter (fun p => ¬ (overrides.map Prod.fst).contains p.1) ++ overrides

/-- Models the constructor `function PaymentProtocol(requestOptions,
trustedKeys)`: `this.options = Object.assign(\x7b\x7d, \x7b agent: false \x7d,
requestOptions); this.trustedKeys = trustedKeys`. -/
def PaymentProtocol.create (requestOptions : List (String × Json))
    (trustedKeys : TrustedKeys) : PaymentProtocol :=
  { options := objectAssign [("agent", Json.bool false)] requestOptions,
    trustedKeys := trustedKeys }

/-- The value returned by `verifyResponse`: `keyData` is `none` exactly when
the code returns the bypass object `\x7b requestUrl, responseData \x7d`
without a `keyData` field. -/
structure VerifiedResponse where
  requestUrl : String
  responseData : Json
  keyData : Option KeyData

/-- One constructor per distinct JS error the client can throw (message
payloads kept where the message interpolates data). -/
inductive JsError where
  | paramRequired (name : String)
  | invalidJsonBody
  | jsParseError
  | typeError (msg : String)
  | invalidRequestUrl
  | missingHeader (name : String)
  | invalidHeader (name : String)
  | unknownSignatureType (t : String)
  | unknownKey (identity : String)
  | digestMismatch (actual : String) (expected : Option String)
  | untrustedDomain (identity : String) (host : String)
  | untrustedNetwork (network : Option Json)
  | signatureInvalid
  | transportError (message : String)
  | invalidPaymentUrl

/-- Models `Buffer.from(s, 'hex')`: decode leading hex pairs, stopping at
the first character that is not a hex digit. -/
def hexDecode (s : String) : List Nat :=
  hexDecodeAux s.data
where
  /-- Decode hex digit pairs from a character list. -/
  hexDecodeAux : List Char → List Nat
    | c1 :: c2 :: rest =>
      match hexVal c1, hexVal c2 with
      | some a, some b => (16 * a + b) :: hexDecodeAux rest
      | _, _ => []
    | _ => []

/-- Models the JS `String.prototype.split('=')`. -/
def jsSplitEq (s : String) : List String :=
  (splitOnChar '=' s.data []).map String.mk

/-- JS property access `responseData.network` (and friends): `undefined`
unless the value is an object with the field. -/
def jsGet : Json → String → Option Json
  | .obj fields, k => (fields.find? (fun p => p.1 = k)).map (fun p => p.2)
  | _, _ => none

/-- Models `xs.includes(v)` for a JS string array `xs` and an arbitrary JS
value `v` (strict equality: only a string can be included). -/
def jsIncludes (xs : List String) (v : Option Json) : Bool :=
  match v with
  | some (.str s) => xs.contains s
  | _ => false

/-- The type of the external `secp256k1.verify(message, signature,
publicKey)` call, over byte lists. -/
abbrev SecpVerify := List Nat → List Nat → List Nat → Bool

/-- Shallow embedding of `PaymentProtocol.prototype.verifyResponse`
(`index.js` lines 529-616), one error constructor per `throw` site, with
the unguarded `headers.digest.split('=')` property access modelled as the
JS `TypeError` it raises when `digest` is missing or not a string. -/
def verifyResponse (pp : PaymentProtocol) (secpVerify : SecpVerify)
    (requestUrl rawBody : String) (headers : Option Headers)
    (checkNetwork : Bool) (unsafeBypassValidation : Bool) :
    Except JsError VerifiedResponse :=
  if requestUrl = "" then .error (.paramRequired "requestUrl")
  else if rawBody = "" then .error (.paramRequired "rawBody")
  else
    match headers with
    | none => .error (.paramRequired "headers")
    | some headers =>
      match jsonParse rawBody with
      | none => .error .invalidJsonBody
      | some responseData =>
        if unsafeBypassValidation then
          .ok { requestUrl := requestUrl, responseData := responseData, keyData := none }
        else
          match hGet headers "digest" with
          | none =>
            .error (.typeError "Cannot read properties of undefined (reading 'split')")
          | some (.other _) =>
            .error (.typeError "headers.digest.split is not a function")
          | some (.str digest) =>
            let hash : Option String := (jsSplitEq digest).get? 1
            let signature : Option HVal := hGet headers "signature"
            let signatureType : Option HVal := hGet headers "x-signature-type"
            let identity : Option HVal := hGet headers "x-identity"
            let host : Option String := (urlParse requestUrl).hostname
            match host with
            | none => .error .invalidRequestUrl
            | some host =>
              if host = "" then .error .invalidRequestUrl
              else if ¬ optTruthy signatureType then .error (.missingHeader "x-signature-type")
              else
                match signatureType with
                | some (.other _) => .error (.invalidHeader "x-signature-type")
                | none => .error (.missingHeader "x-signature-type")
                | some (.str st) =>
                  if st ≠ "ecc" then .error (.unknownSignatureType st)
                  else if ¬ optTruthy signature then .error (.missingHeader "signature")
                  else
                    match signature with
                    | some (.other _) => .error (.invalidHeader "signature")
                    | none => .error (.missingHeader "signature")
                    | some (.str sg) =>
                      if ¬ optTruthy identity then .error (.missingHeader "x-identity")
                      else
                        match identity with
                        | some (.other _) => .error (.invalidHeader "identity")
                        | none => .error (.missingHeader "x-identity")
                        | some (.str idv) =>
                          match lookupKey pp.trustedKeys idv with
                          | none => .error (.unknownKey idv)
                          | some keyData =>
                            let actualHash := sha256HexOfString rawBody
                            match hash with
                            | none => .error (.digestMismatch actualHash none)
                            | some hashStr =>
                              if hashStr ≠ actualHash then
                                .error (.digestMismatch actualHash (some hashStr))
                              else if ¬ keyData.domains.contains host then
                                .error (.untrustedDomain idv host)
                              else if checkNetwork ∧
                                  ¬ jsIncludes keyData.networks (jsGet responseData "network") then
                                .error (.untrustedNetwork (jsGet responseData "network"))
                              else if ¬ secpVerify (hexDecode hashStr) (hexDecode sg)
                                  (hexDecode keyData.publicKey) then
                                .error .signatureInvalid
                              else
                                .ok { requestUrl := requestUrl,
                                      responseData := responseData,
                                      keyData := some keyData }

/-- Escape one character for a JSON string literal. -/
def escapeJsonChar (c : Char) : List Char :=
  if c = '"' then ['\\', '"']
  else if c = '\\' then ['\\', '\\']
  else if c = '\n' then ['\\', 'n']
  else if c = '\t' then ['\\', 't']
  else if c = '\r' then ['\\', 'r']
  else if c.toNat = 8 then ['\\', 'b']
  else if c.toNat = 12 then ['\\', 'f']
  else if c.toNat < 32 then
    ['\\', 'u', '0', '0', hexDigit (c.toNat / 16), hexDigit (c.toNat % 16)]
  else [c]

/-- Quote a string as a JSON string literal. -/
def quoteJson (s : String) : String :=
  "\"" ++ String.mk (s.data.flatMap escapeJsonChar) ++ "\""

mutual

/-- Models the Node builtin `JSON.stringify` on the modelled `Json` values
(no spacing, insertion order preserved). -/
def jsonStringify : Json → String
  | .null => "null"
  | .bool true => "true"
  | .bool false => "false"
  | .num n => toString n
  | .str s => quoteJson s
  | .arr xs => "[" ++ stringifyElems xs ++ "]"
  | .obj fs => "\x7b" ++ stringifyFields fs ++ "\x7d"

/-- Comma-joined stringified array elements. -/
def stringifyElems : List Json → String
  | [] => ""
  | [x] => jsonStringify x
  | x :: rest => jsonStringify x ++ "," ++ stringifyElems rest

/-- Comma-joined stringified object fields. -/
def stringifyFields : List (String × Json) → String
  | [] => ""
  | [(k, v)] => quoteJson k ++ ":" ++ jsonStringify v
  | (k, v) :: rest => quoteJson k ++ ":" ++ jsonStringify v ++ "," ++ stringifyFields rest

end

/-- The request options object handed to `_asyncRequest` (method, url,
headers, optional body). -/
structure HttpRequest where
  method : String
  url : String
  headers : List (String × String)
  body : Option String

/-- A raw HTTP response: body text and response headers. -/
structure RawResponse where
  rawBody : String
  headers : Headers

/-- The HTTPS round trip, as an oracle: what the network would answer to a
given request (`Except.error` models both connection errors and non-200
statuses rejected inside `_asyncRequest`). -/
abbrev Transport := HttpRequest → Except String RawResponse

/-- Models `PaymentProtocol.prototype._asyncRequest`: option merging and the
`https.request` round trip are delegated to the transport oracle. -/
def asyncRequest (t : Transport) (options : HttpRequest) : Except String RawResponse :=
  t options

/-- Shallow embedding of `PaymentProtocol.prototype.getPaymentOptions`
(`index.js` lines 399-423): non-`http(s)` URIs are redirected through their
mandatory `r` query parameter, then a GET is issued and the response is
verified with `checkNetwork = false`. -/
def getPaymentOptions (pp : PaymentProtocol) (secpVerify : SecpVerify) (t : Transport)
    (paymentUrl : String) (unsafeBypassValidation : Bool) :
    Except JsError VerifiedResponse :=
  let paymentUrlObject := urlParse paymentUrl
  let effectiveUrl : Except JsError String :=
    if paymentUrlObject.protocol ≠ some "http:" ∧ paymentUrlObject.protocol ≠ some "https:" then
      let uriQuery := queryDecode (paymentUrlObject.query.getD "")
      match qGet uriQuery "r" with
      | none => .error .invalidPaymentUrl
      | some r => if r = "" then .error .invalidPaymentUrl else .ok r
    else .ok paymentUrl
  match effectiveUrl with
  | .error e => .error e
  | .ok paymentUrl =>
    match asyncRequest t
        { method := "GET", url := paymentUrl,
          headers := [("Accept", "application/payment-options"), ("x-paypro-version", "2")],
          body := none } with
    | .error e => .error (.transportError e)
    | .ok r =>
      verifyResponse pp secpVerify paymentUrl r.rawBody (some r.headers) false
        unsafeBypassValidation

/-- Shallow embedding of `PaymentProtocol.prototype.selectPaymentOption`
(`index.js` lines 433-448): POST of `\x7b chain, currency \x7d` with
content type `application/payment-request`, response verified with
`checkNetwork = true`. -/
def selectPaymentOption (pp : PaymentProtocol) (secpVerify : SecpVerify) (t : Transport)
    (paymentUrl chain currency : String) (unsafeBypassValidation : Bool) :
    Except JsError VerifiedResponse :=
  match asyncRequest t
      { method := "POST", url := paymentUrl,
        headers := [("Content-Type", "application/payment-request"), ("x-paypro-version", "2")],
        body := some (jsonStringify (Json.obj
          [("chain", Json.str chain), ("currency", Json.str currency)])) } with
  | .error e => .error (.transportError e)
  | .ok r =>
    verifyResponse pp secpVerify paymentUrl r.rawBody (some r.headers) true
      unsafeBypassValidation

/-- Shallow embedding of `PaymentProtocol.prototype.verifyPaymentRequest`
(`index.js` lines 460-483): POST of the unsigned transactions with content
type `application/payment-verification`; the response body is parsed with
`JSON.parse` and returned as the `responseData` field of the result object
with no call to `verifyResponse` (the call is commented out in the source),
so the `unsafeBypassValidation` argument is never read.  A `JSON.parse`
failure is the uncaught `SyntaxError` (`JsError.jsParseError`). -/
def verifyPaymentRequest (pp : PaymentProtocol) (t : Transport)
    (paymentUrl chain currency : String) (unsignedTransactions : Json)
    (unsafeBypassValidation : Bool) : Except JsError Json :=
  match asyncRequest t
      { method := "POST", url := paymentUrl,
        headers := [("Content-Type", "application/payment-verification"),
                    ("x-paypro-version", "2")],
        body := some (jsonStringify (Json.obj
          [("chain", Json.str chain), ("currency", Json.str currency),
           ("transactions", unsignedTransactions)])) } with
  | .error e => .error (.transportError e)
  | .ok r =>
    match jsonParse r.rawBody with
    | none => .error .jsParseError
    | some j => .ok j

/-- Shallow embedding of `PaymentProtocol.prototype.sendSignedPayment`
(`index.js` lines 495-518): POST of the signed transactions with content
type `application/payment`, response verified with `checkNetwork = false`. -/
def sendSignedPayment (pp : PaymentProtocol) (secpVerify : SecpVerify) (t : Transport)
    (paymentUrl chain currency : String) (signedTransactions : Json)
    (unsafeBypassValidation : Bool) : Except JsError VerifiedResponse :=
  match asyncRequest t
      { method := "POST", url := paymentUrl,
        headers := [("Content-Type", "application/payment"), ("x-paypro-version", "2")],
        body := some (jsonStringify (Json.obj
          [("chain", Json.str chain), ("currency", Json.str currency),
           ("transactions", signedTransactions)])) } with
  | .error e => .error (.transportError e)
  | .ok r =>
    verifyResponse pp secpVerify paymentUrl r.rawBody (some r.headers) false
      unsafeBypassValidation

/-- Concrete trusted key used in witnesses: trusted for the
`merchant.example` domain and the `main` network. -/
def keyMain : KeyData :=
  { owner := "Test Merchant",
    networks := ["main"],
    domains := ["merchant.example"],
    publicKey := "03a1b2c3" }

/-- Concrete client whose trust store maps `key1` to `keyMain`. -/
def ppMain : PaymentProtocol := PaymentProtocol.create [] [("key1", keyMain)]

/-- Signature oracle that accepts every signature (a correctly signed
response, as far as the client can observe). -/
def secpAccept : SecpVerify := fun _ _ _ => true

/-- Transport oracle that fails every request. -/
def transportDown : Transport := fun _ => .error "connection refused"

/-- Concrete request URL on the trusted domain. -/
def urlMain : String := "https://merchant.example/pay"

/-- Concrete response body declaring the `main` network. -/
def bodyMain : String := "\x7b\"network\":\"main\"\x7d"

/-- Correct headers for `bodyMain` signed by `key1`: the digest header
carries the actual SHA-256 hex of `bodyMain`. -/
def headersMain : Headers :=
  [("digest", .str "sha-256=2d8b5a3901cc752a0607e9500adf3b3a4a8b1aa5f30fcf8592ff6a88ffa99cb0"),
   ("signature", .str "3044aabb"),
   ("x-signature-type", .str "ecc"),
   ("x-identity", .str "key1")]

/-- The parsed form of `bodyMain`. -/
def jsonMain : Json := Json.obj [("network", Json.str "main")]

/-- A second trusted key, for the reordered-trust-store witness. -/
def keyAlt : KeyData :=
  { owner := "Other Merchant", networks := ["test"], domains := ["other.example"],
    publicKey := "02ffee" }

/-- Trust store listing `key1` first. -/
def ppA : PaymentProtocol := ⟨[], [("key1", keyMain), ("key0", keyAlt)]⟩

/-- The same trust store listed in the other order. -/
def ppB : PaymentProtocol := ⟨[], [("key0", keyAlt), ("key1", keyMain)]⟩

/-- Does this error name the given header, the way the distinct
missing-header / invalid-header errors of `verifyResponse` do? -/
def namesHeader : JsError → String → Bool
  | .missingHeader n, m => n = m
  | .invalidHeader n, m => n = m
  | _, _ => false

/-- Is this outcome the digest-mismatch failure? -/
def isDigestMismatch : Except JsError VerifiedResponse → Bool
  | .error (.digestMismatch _ _) => true
  | _ => false

/-- The two byte lists differ in exactly one position (same length, exactly
one differing byte). -/
def oneByteFlip (a b : List Nat) : Bool :=
  a.length == b.length && (a.zip b).countP (fun p => !(p.1 == p.2)) == 1

/-- Headers carrying a valid signature, signature type and identity but no
digest header at all. -/
def headersNoDigest : Headers :=
  [("signature", .str "3044aabb"),
   ("x-signature-type", .str "ecc"),
   ("x-identity", .str "key1")]

/-- Correct headers for the body `[0]` signed by `key1`. -/
def headersBracketZero : Headers :=
  [("digest", .str "sha-256=d0bca111f8628137adc4c16f123496dcdd1d590d06cb5d9acd68b39fe656fb97"),
   ("signature", .str "3044aabb"),
   ("x-signature-type", .str "ecc"),
   ("x-identity", .str "key1")]

/-- Correct headers for the body `{}` signed by `key1`. -/
def headersBraces : Headers :=
  [("digest", .str "sha-256=44136fa355b3678a1146ad16f7e8649e94fb4fc21fe77e8310c060f61caaff8a"),
   ("signature", .str "3044aabb"),
   ("x-signature-type", .str "ecc"),
   ("x-identity", .str "key1")]


/-!
Sanity checks: the modelled builtins on concrete inputs (JSON parsing,
SHA-256 against standard vectors, URL and query parsing), and one
end-to-end successful verification.
-/

example : jsonParse "\x7b\x7d" = some (Json.obj []) := rfl

example : jsonParse "\x7b\"network\":\"main\"\x7d" =
    some (Json.obj [("network", Json.str "main")]) := rfl

example : jsonParse "(\x7d" = none := rfl

example : jsonParse "[0]" = some (Json.arr [Json.num 0]) := rfl

example : jsonParse " [1, \"a\", true, null, \x7b\"k\": -2\x7d ] " =
    some (Json.arr [Json.num 1, Json.str "a", Json.bool true, Json.null,
      Json.obj [("k", Json.num (-2))]]) := rfl

example : jsonParse "01" = none := rfl

example : jsonParse "" = none := rfl

example : sha256HexOfString "\x7b\x7d" =
    "44136fa355b3678a1146ad16f7e8649e94fb4fc21fe77e8310c060f61caaff8a" := by decide

example : sha256HexOfString "" =
    "e3b0c44298fc1c149afbf4c8996fb92427ae41e4649b934ca495991b7852b855" := by decide

example : sha256HexOfString "[0]" =
    "d0bca111f8628137adc4c16f123496dcdd1d590d06cb5d9acd68b39fe656fb97" := by decide

example : urlParse "https://merchant.example/pay" =
    ⟨some "https:", some "merchant.example", none⟩ := rfl

example : urlParse "bitcoin:?r=https://merchant.example/pay" =
    ⟨some "bitcoin:", none, some "r=https://merchant.example/pay"⟩ := rfl

example : urlParse "HTTPS://User@Merchant.Example:443/pay?a=1#f" =
    ⟨some "https:", some "merchant.example", some "a=1"⟩ := rfl

example : urlParse "not a url" = ⟨none, none, none⟩ := rfl

example : qGet (queryDecode "r=https://merchant.example/pay") "r" =
    some "https://merchant.example/pay" := rfl

example : qGet (queryDecode "x=1&y=2") "r" = none := rfl

example : qGet (queryDecode "r=a%20b+c") "r" = some "a b c" := rfl

example : queryDecode "" = [] := rfl

example : jsSplitEq "sha-256=abcd" = ["sha-256", "abcd"] := rfl

example : (jsSplitEq "sha256hash").get? 1 = none := rfl

example : jsonParse bodyMain = some jsonMain := rfl

example : sha256HexOfString bodyMain =
    "2d8b5a3901cc752a0607e9500adf3b3a4a8b1aa5f30fcf8592ff6a88ffa99cb0" := by decide

example : verifyResponse ppMain secpAccept urlMain bodyMain (some headersMain) true false =
    .ok ⟨urlMain, jsonMain, some keyMain⟩ := rfl

/-- C4: with `bypass = true` and a JSON body, `verifyResponse` returns
`\x7b requestUrl, responseData \x7d` with no `keyData`, for every header map
whatsoever — the right-hand side does not mention `hs`, `secpVerify` or the
trust store, so the same result is returned for valid and for deliberately
corrupted headers and no header, digest, domain, network or signature check
is performed. -/
theorem C4_bypass_skips_all_checks (pp : PaymentProtocol) (secpVerify : SecpVerify)
    (requestUrl rawBody : String) (hs : Headers) (checkNetwork : Bool) (j : Json)
    (hu : requestUrl ≠ "") (hb : rawBody ≠ "") (hj : jsonParse rawBody = some j) :
    verifyResponse pp secpVerify requestUrl rawBody (some hs) checkNetwork true =
      .ok ⟨requestUrl, j, none⟩ := by
  simp [verifyResponse, hu, hb, hj]

/-- C4 witness: the bypass result at a concrete call, both with the correct
headers and with deliberately corrupted headers. -/
theorem C4_bypass_skips_all_checks_witness :
    verifyResponse ppMain secpAccept urlMain bodyMain (some headersMain) true true =
      .ok ⟨urlMain, jsonMain, none⟩ ∧
    verifyResponse ppMain secpAccept urlMain bodyMain
        (some [("digest", HVal.str "garbage")]) true true =
      .ok ⟨urlMain, jsonMain, none⟩ :=
  ⟨C4_bypass_skips_all_checks ppMain secpAccept urlMain bodyMain headersMain true jsonMain
      (by decide) (by decide) rfl,
   C4_bypass_skips_all_checks ppMain secpAccept urlMain bodyMain
      [("digest", HVal.str "garbage")] true jsonMain (by decide) (by decide) rfl⟩

/-- C10: even with `bypass = true`, the argument preconditions and the JSON
parse are not skipped: a falsy (`""`/absent) `requestUrl`, `rawBody` or
`headers` throws the corresponding `Parameter ... is required` error, and a
present but non-JSON `rawBody` throws `Invalid JSON in response body`,
before the bypass early return is reached. -/
theorem C10_bypass_keeps_preconditions (pp : PaymentProtocol) (secpVerify : SecpVerify)
    (requestUrl rawBody : String) (headers : Option Headers) (hs : Headers)
    (checkNetwork : Bool) :
    (verifyResponse pp secpVerify "" rawBody headers checkNetwork true =
      .error (.paramRequired "requestUrl")) ∧
    (requestUrl ≠ "" →
      verifyResponse pp secpVerify requestUrl "" headers checkNetwork true =
        .error (.paramRequired "rawBody")) ∧
    (requestUrl ≠ "" → rawBody ≠ "" →
      verifyResponse pp secpVerify requestUrl rawBody none checkNetwork true =
        .error (.paramRequired "headers")) ∧
    (requestUrl ≠ "" → rawBody ≠ "" → jsonParse rawBody = none →
      verifyResponse pp secpVerify requestUrl rawBody (some hs) checkNetwork true =
        .error .invalidJsonBody) := by
  refine ⟨by simp [verifyResponse], fun hu => by simp [verifyResponse, hu],
    fun hu hb => by simp [verifyResponse, hu, hb],
    fun hu hb hj => by simp [verifyResponse, hu, hb, hj]⟩

/-- C10 witness: the four precondition errors at concrete bypassed calls
(the last with the non-JSON body `not json`). -/
theorem C10_bypass_keeps_preconditions_witness :
    (verifyResponse ppMain secpAccept "" bodyMain (some headersMain) true true =
      .error (.paramRequired "requestUrl")) ∧
    (verifyResponse ppMain secpAccept urlMain "" (some headersMain) true true =
      .error (.paramRequired "rawBody")) ∧
    (verifyResponse ppMain secpAccept urlMain bodyMain none true true =
      .error (.paramRequired "headers")) ∧
    (verifyResponse ppMain secpAccept urlMain "not json" (some headersMain) true true =
      .error .invalidJsonBody) := by
  obtain ⟨h1, h2, h3, h4⟩ :=
    C10_bypass_keeps_preconditions ppMain secpAccept urlMain "not json"
      (some headersMain) headersMain true
  exact ⟨h1, h2 (by decide), h3 (by decide) (by decide),
    h4 (by decide) (by decide) rfl⟩

/-- C7: with well-formed headers and a matching digest, a request-URL
hostname outside the matched key's `domains` fails with the untrusted-domain
error, for every signature oracle `secpVerify` — in particular also when the
signature would verify. -/
theorem C7_untrusted_domain_rejected (pp : PaymentProtocol) (secpVerify : SecpVerify)
    (requestUrl rawBody : String) (hs : Headers) (checkNetwork : Bool)
    (j : Json) (d sg idv host : String) (keyData : KeyData)
    (hu : requestUrl ≠ "") (hb : rawBody ≠ "") (hj : jsonParse rawBody = some j)
    (hd : hGet hs "digest" = some (.str d))
    (hhash : (jsSplitEq d).get? 1 = some (sha256HexOfString rawBody))
    (hst : hGet hs "x-signature-type" = some (.str "ecc"))
    (hsig : hGet hs "signature" = some (.str sg)) (hsg : sg ≠ "")
    (hid : hGet hs "x-identity" = some (.str idv)) (hidne : idv ≠ "")
    (hkey : lookupKey pp.trustedKeys idv = some keyData)
    (hhost : (urlParse requestUrl).hostname = some host) (hhostne : host ≠ "")
    (hdom : host ∉ keyData.domains) :
    verifyResponse pp secpVerify requestUrl rawBody (some hs) checkNetwork false =
      .error (.untrustedDomain idv host) := by
  simp only [List.get?_eq_getElem?] at hhash
  simp [verifyResponse, hu, hb, hj, hd, hhash, hst, hsig, hsg, hid, hidne, hkey,
    hhost, hhostne, hdom, optTruthy, hvalTruthy]

/-- C7 witness: a fully signed response (accepting signature oracle) is
rejected with the untrusted-domain error when the request went to
`https://evil.example/pay`, a hostname not in `key1`'s domain set. -/
theorem C7_untrusted_domain_rejected_witness :
    verifyResponse ppMain secpAccept "https://evil.example/pay" bodyMain
      (some headersMain) false false =
      .error (.untrustedDomain "key1" "evil.example") :=
  C7_untrusted_domain_rejected ppMain secpAccept "https://evil.example/pay" bodyMain
    headersMain false jsonMain
    "sha-256=2d8b5a3901cc752a0607e9500adf3b3a4a8b1aa5f30fcf8592ff6a88ffa99cb0"
    "3044aabb" "key1" "evil.example" keyMain
    (by decide) (by decide) rfl rfl (by decide) rfl rfl (by decide) rfl (by decide)
    rfl rfl (by decide) (by decide)

/-- C8: (a) with `checkNetwork = true` and an otherwise fully valid,
correctly signed response, a declared network outside the matched key's
`networks` fails with the untrusted-network error, for every signature
oracle; (b) `selectPaymentOption` invokes `verifyResponse` with
`checkNetwork = true`, while `getPaymentOptions` (here on an `https:` URL)
and `sendSignedPayment` invoke it with `checkNetwork = false`. -/
theorem C8_network_check_and_call_sites :
    (∀ (pp : PaymentProtocol) (secpVerify : SecpVerify) (requestUrl rawBody : String)
       (hs : Headers) (j : Json) (d sg idv host : String) (keyData : KeyData),
      requestUrl ≠ "" → rawBody ≠ "" → jsonParse rawBody = some j →
      hGet hs "digest" = some (.str d) →
      (jsSplitEq d).get? 1 = some (sha256HexOfString rawBody) →
      hGet hs "x-signature-type" = some (.str "ecc") →
      hGet hs "signature" = some (.str sg) → sg ≠ "" →
      hGet hs "x-identity" = some (.str idv) → idv ≠ "" →
      lookupKey pp.trustedKeys idv = some keyData →
      (urlParse requestUrl).hostname = some host → host ≠ "" →
      host ∈ keyData.domains →
      jsIncludes keyData.networks (jsGet j "network") = false →
      verifyResponse pp secpVerify requestUrl rawBody (some hs) true false =
        .error (.untrustedNetwork (jsGet j "network"))) ∧
    (∀ (pp : PaymentProtocol) (secpVerify : SecpVerify) (t : Transport)
       (paymentUrl chain currency : String) (bypass : Bool),
      selectPaymentOption pp secpVerify t paymentUrl chain currency bypass =
        match t { method := "POST", url := paymentUrl,
                  headers := [("Content-Type", "application/payment-request"),
                              ("x-paypro-version", "2")],
                  body := some (jsonStringify (Json.obj
                    [("chain", Json.str chain), ("currency", Json.str currency)])) } with
        | .error e => .error (.transportError e)
        | .ok r => verifyResponse pp secpVerify paymentUrl r.rawBody (some r.headers)
            true bypass) ∧
    (∀ (pp : PaymentProtocol) (secpVerify : SecpVerify) (t : Transport)
       (paymentUrl : String) (bypass : Bool),
      (urlParse paymentUrl).protocol = some "https:" →
      getPaymentOptions pp secpVerify t paymentUrl bypass =
        match t { method := "GET", url := paymentUrl,
                  headers := [("Accept", "application/payment-options"),
                              ("x-paypro-version", "2")],
                  body := none } with
        | .error e => .error (.transportError e)
        | .ok r => verifyResponse pp secpVerify paymentUrl r.rawBody (some r.headers)
            false bypass) ∧
    (∀ (pp : PaymentProtocol) (secpVerify : SecpVerify) (t : Transport)
       (paymentUrl chain currency : String) (txs : Json) (bypass : Bool),
      sendSignedPayment pp secpVerify t paymentUrl chain currency txs bypass =
        match t { method := "POST", url := paymentUrl,
                  headers := [("Content-Type", "application/payment"),
                              ("x-paypro-version", "2")],
                  body := some (jsonStringify (Json.obj
                    [("chain", Json.str chain), ("currency", Json.str currency),
                     ("transactions", txs)])) } with
        | .error e => .error (.transportError e)
        | .ok r => verifyResponse pp secpVerify paymentUrl r.rawBody (some r.headers)
            false bypass) := by
  refine ⟨?_, fun pp s t u c cur b => rfl, ?_, fun pp s t u c cur txs b => rfl⟩
  · intro pp secpVerify requestUrl rawBody hs j d sg idv host keyData
      hu hb hj hd hhash hst hsig hsg hid hidne hkey hhost hhostne hdom hnet
    simp only [List.get?_eq_getElem?] at hhash
    simp [verifyResponse, hu, hb, hj, hd, hhash, hst, hsig, hsg, hid, hidne, hkey,
      hhost, hhostne, hdom, hnet, optTruthy, hvalTruthy]
  · intro pp secpVerify t paymentUrl bypass hproto
    simp [getPaymentOptions, hproto, asyncRequest]

/-- C8 witness: a correctly signed response declaring the untrusted `test`
network is rejected under `checkNetwork = true`, and the three operations'
`verifyResponse` call sites at concrete arguments (transport down). -/
theorem C8_network_check_and_call_sites_witness :
    (verifyResponse ppMain secpAccept urlMain "\x7b\"network\":\"test\"\x7d"
      (some [("digest",
          .str "sha-256=70e0916151f9e06ea25742fc1ce555525390f072583b339ce80de5f0eba0f273"),
        ("signature", .str "3044aabb"), ("x-signature-type", .str "ecc"),
        ("x-identity", .str "key1")]) true false =
      .error (.untrustedNetwork (some (Json.str "test")))) ∧
    (selectPaymentOption ppMain secpAccept transportDown urlMain "BTC" "BTC" false =
      .error (.transportError "connection refused")) ∧
    (getPaymentOptions ppMain secpAccept transportDown urlMain false =
      .error (.transportError "connection refused")) ∧
    (sendSignedPayment ppMain secpAccept transportDown urlMain "BTC" "BTC"
        (Json.arr []) false =
      .error (.transportError "connection refused")) := by
  obtain ⟨h1, h2, h3, h4⟩ := C8_network_check_and_call_sites
  refine ⟨?_, ?_, ?_, ?_⟩
  · have := h1 ppMain secpAccept urlMain "\x7b\"network\":\"test\"\x7d"
      [("digest",
          .str "sha-256=70e0916151f9e06ea25742fc1ce555525390f072583b339ce80de5f0eba0f273"),
        ("signature", .str "3044aabb"), ("x-signature-type", .str "ecc"),
        ("x-identity", .str "key1")]
      (Json.obj [("network", Json.str "test")])
      "sha-256=70e0916151f9e06ea25742fc1ce555525390f072583b339ce80de5f0eba0f273"
      "3044aabb" "key1" "merchant.example" keyMain
      (by decide) (by decide) rfl rfl (by decide) rfl rfl (by decide) rfl (by decide)
      rfl rfl (by decide) (by decide) (by decide)
    exact this
  · exact (h2 ppMain secpAccept transportDown urlMain "BTC" "BTC" false).trans rfl
  · exact (h3 ppMain secpAccept transportDown urlMain false rfl).trans rfl
  · exact (h4 ppMain secpAccept transportDown urlMain "BTC" "BTC" (Json.arr []) false).trans rfl

/-- C6: for a payment URL whose scheme is neither `http` nor `https`,
`getPaymentOptions` fails with the `Invalid payment protocol url` error when
the `r` query parameter is absent, and when `r` is present (and nonempty, as
the code also rejects a falsy `r`) it issues the GET request — with the
`Accept: application/payment-options` and `x-paypro-version: 2` headers —
against exactly the URL given by `r`. -/
theorem C6_payment_uri_redirect (pp : PaymentProtocol) (secpVerify : SecpVerify)
    (t : Transport) (paymentUrl : String) (bypass : Bool)
    (hp1 : (urlParse paymentUrl).protocol ≠ some "http:")
    (hp2 : (urlParse paymentUrl).protocol ≠ some "https:") :
    (qGet (queryDecode ((urlParse paymentUrl).query.getD "")) "r" = none →
      getPaymentOptions pp secpVerify t paymentUrl bypass = .error .invalidPaymentUrl) ∧
    (∀ rv, rv ≠ "" →
      qGet (queryDecode ((urlParse paymentUrl).query.getD "")) "r" = some rv →
      getPaymentOptions pp secpVerify t paymentUrl bypass =
        match t { method := "GET", url := rv,
                  headers := [("Accept", "application/payment-options"),
                              ("x-paypro-version", "2")],
                  body := none } with
        | .error e => .error (.transportError e)
        | .ok r => verifyResponse pp secpVerify rv r.rawBody (some r.headers)
            false bypass) := by
  constructor
  · intro hr
    simp [getPaymentOptions, hp1, hp2, hr]
  · intro rv hrne hr
    simp [getPaymentOptions, hp1, hp2, hr, hrne, asyncRequest]

/-- C6 witness: a `bitcoin:` URI without `r` yields the protocol error, and
one with `r=https://merchant.example/pay` issues the GET against exactly
that URL (transport down, so the transport error surfaces). -/
theorem C6_payment_uri_redirect_witness :
    (getPaymentOptions ppMain secpAccept transportDown
        "bitcoin:?amount=1" false = .error .invalidPaymentUrl) ∧
    (getPaymentOptions ppMain secpAccept transportDown
        "bitcoin:?r=https://merchant.example/pay" false =
      match transportDown
          { method := "GET", url := "https://merchant.example/pay",
            headers := [("Accept", "application/payment-options"),
                        ("x-paypro-version", "2")],
            body := none } with
      | .error e => .error (.transportError e)
      | .ok r => verifyResponse ppMain secpAccept "https://merchant.example/pay"
          r.rawBody (some r.headers) false false) :=
  ⟨(C6_payment_uri_redirect ppMain secpAccept transportDown "bitcoin:?amount=1" false
      (by decide) (by decide)).1 rfl,
   (C6_payment_uri_redirect ppMain secpAccept transportDown
      "bitcoin:?r=https://merchant.example/pay" false (by decide) (by decide)).2
      "https://merchant.example/pay" (by decide) rfl⟩

/-- C5: `verifyPaymentRequest` returns the parsed JSON of the response body
without invoking `verifyResponse` — its result is the parsed body for every
trust store and every header map the server returns, and is identical for
`unsafeBypassValidation = true` and `false` — whereas `sendSignedPayment`
passes its response through full `verifyResponse` verification with
`checkNetwork = false`. -/
theorem C5_request_verification_asymmetry :
    (∀ (pp : PaymentProtocol) (t : Transport) (paymentUrl chain currency : String)
       (txs : Json) (b : Bool) (r : RawResponse) (j : Json),
      t { method := "POST", url := paymentUrl,
          headers := [("Content-Type", "application/payment-verification"),
                      ("x-paypro-version", "2")],
          body := some (jsonStringify (Json.obj
            [("chain", Json.str chain), ("currency", Json.str currency),
             ("transactions", txs)])) } = .ok r →
      jsonParse r.rawBody = some j →
      verifyPaymentRequest pp t paymentUrl chain currency txs b = .ok j) ∧
    (∀ (pp : PaymentProtocol) (t : Transport) (paymentUrl chain currency : String)
       (txs : Json) (b1 b2 : Bool),
      verifyPaymentRequest pp t paymentUrl chain currency txs b1 =
        verifyPaymentRequest pp t paymentUrl chain currency txs b2) ∧
    (∀ (pp : PaymentProtocol) (secpVerify : SecpVerify) (t : Transport)
       (paymentUrl chain currency : String) (txs : Json) (b : Bool),
      sendSignedPayment pp secpVerify t paymentUrl chain currency txs b =
        match t { method := "POST", url := paymentUrl,
                  headers := [("Content-Type", "application/payment"),
                              ("x-paypro-version", "2")],
                  body := some (jsonStringify (Json.obj
                    [("chain", Json.str chain), ("currency", Json.str currency),
                     ("transactions", txs)])) } with
        | .error e => .error (.transportError e)
        | .ok r => verifyResponse pp secpVerify paymentUrl r.rawBody (some r.headers)
            false b) := by
  refine ⟨?_, fun pp t u c cur txs b1 b2 => rfl, fun pp s t u c cur txs b => rfl⟩
  intro pp t paymentUrl chain currency txs b r j ht hj
  simp [verifyPaymentRequest, asyncRequest, ht, hj]

/-- C5 witness: a transport answering the verification POST with a body
that would fail every signature check (no headers at all) still returns the
parsed body from `verifyPaymentRequest`; `sendSignedPayment` over the same
transport routes through `verifyResponse`. -/
theorem C5_request_verification_asymmetry_witness :
    (verifyPaymentRequest ppMain (fun _ => .ok ⟨"\x7b\"memo\":\"ok\"\x7d", []⟩)
        urlMain "BTC" "BTC" (Json.arr []) false =
      .ok (Json.obj [("memo", Json.str "ok")])) ∧
    (verifyPaymentRequest ppMain (fun _ => .ok ⟨"\x7b\"memo\":\"ok\"\x7d", []⟩)
        urlMain "BTC" "BTC" (Json.arr []) true =
      verifyPaymentRequest ppMain (fun _ => .ok ⟨"\x7b\"memo\":\"ok\"\x7d", []⟩)
        urlMain "BTC" "BTC" (Json.arr []) false) ∧
    (sendSignedPayment ppMain secpAccept transportDown urlMain "BTC" "BTC"
        (Json.arr []) false = .error (.transportError "connection refused")) := by
  obtain ⟨h1, h2, h3⟩ := C5_request_verification_asymmetry
  exact ⟨h1 ppMain (fun _ => .ok ⟨"\x7b\"memo\":\"ok\"\x7d", []⟩) urlMain "BTC" "BTC"
      (Json.arr []) false ⟨"\x7b\"memo\":\"ok\"\x7d", []⟩
      (Json.obj [("memo", Json.str "ok")]) rfl rfl,
    h2 ppMain (fun _ => .ok ⟨"\x7b\"memo\":\"ok\"\x7d", []⟩) urlMain "BTC" "BTC"
      (Json.arr []) true false,
    (h3 ppMain secpAccept transportDown urlMain "BTC" "BTC" (Json.arr []) false).trans rfl⟩

/-- Helper: `verifyResponse` reads the client only through the exact
identity-string lookup `lookupKey` on `trustedKeys`, so two clients whose
trust stores answer every lookup identically behave identically. -/
theorem verifyResponse_lookup_ext (pp1 pp2 : PaymentProtocol) (secpVerify : SecpVerify)
    (requestUrl rawBody : String) (headers : Option Headers)
    (checkNetwork bypass : Bool)
    (h : ∀ s, lookupKey pp1.trustedKeys s = lookupKey pp2.trustedKeys s) :
    verifyResponse pp1 secpVerify requestUrl rawBody headers checkNetwork bypass =
      verifyResponse pp2 secpVerify requestUrl rawBody headers checkNetwork bypass := by
  simp only [verifyResponse, h]

/-- C9: the trusted-keys mapping is never mutated and is only read by exact
identity-string lookup.  The source methods never assign to
`this.trustedKeys` (each embeds as a pure function of the client), so the
formalised content is: (a) the constructor stores exactly the mapping given
to it; (b) every operation reads the mapping only through `lookupKey`, i.e.
any two clients whose trust stores agree on every exact-identity lookup give
identical results on all five operations (successful or failing). -/
theorem C9_trust_store_immutable_exact_lookup :
    (∀ (opts : List (String × Json)) (tk : TrustedKeys),
      (PaymentProtocol.create opts tk).trustedKeys = tk) ∧
    (∀ (pp1 pp2 : PaymentProtocol),
      (∀ s, lookupKey pp1.trustedKeys s = lookupKey pp2.trustedKeys s) →
      (∀ (secpVerify : SecpVerify) (u rb : String) (headers : Option Headers) (ck b : Bool),
        verifyResponse pp1 secpVerify u rb headers ck b =
          verifyResponse pp2 secpVerify u rb headers ck b) ∧
      (∀ (secpVerify : SecpVerify) (t : Transport) (u : String) (b : Bool),
        getPaymentOptions pp1 secpVerify t u b = getPaymentOptions pp2 secpVerify t u b) ∧
      (∀ (secpVerify : SecpVerify) (t : Transport) (u c cur : String) (b : Bool),
        selectPaymentOption pp1 secpVerify t u c cur b =
          selectPaymentOption pp2 secpVerify t u c cur b) ∧
      (∀ (t : Transport) (u c cur : String) (txs : Json) (b : Bool),
        verifyPaymentRequest pp1 t u c cur txs b = verifyPaymentRequest pp2 t u c cur txs b) ∧
      (∀ (secpVerify : SecpVerify) (t : Transport) (u c cur : String) (txs : Json) (b : Bool),
        sendSignedPayment pp1 secpVerify t u c cur txs b =
          sendSignedPayment pp2 secpVerify t u c cur txs b)) := by
  refine ⟨fun opts tk => rfl, fun pp1 pp2 h => ⟨?_, ?_, ?_, fun t u c cur txs b => rfl, ?_⟩⟩
  · exact fun s u rb headers ck b => verifyResponse_lookup_ext pp1 pp2 s u rb headers ck b h
  · intro secpVerify t u b
    simp only [getPaymentOptions, asyncRequest]
    split
    · rfl
    · split
      · rfl
      · exact verifyResponse_lookup_ext pp1 pp2 _ _ _ _ _ _ h
  · intro secpVerify t u c cur b
    simp only [selectPaymentOption, asyncRequest]
    split
    · rfl
    · exact verifyResponse_lookup_ext pp1 pp2 _ _ _ _ _ _ h
  · intro secpVerify t u c cur txs b
    simp only [sendSignedPayment, asyncRequest]
    split
    · rfl
    · exact verifyResponse_lookup_ext pp1 pp2 _ _ _ _ _ _ h

/-- The two orderings answer every exact-identity lookup identically. -/
theorem ppAB_lookup_agree :
    ∀ s, lookupKey ppA.trustedKeys s = lookupKey ppB.trustedKeys s := by
  intro s
  by_cases h1 : s = "key1"
  · subst h1; rfl
  · by_cases h2 : s = "key0"
    · subst h2; rfl
    · simp [ppA, ppB, lookupKey, List.find?, Ne.symm h1, Ne.symm h2]

/-- C9 witness: the constructor stores the concrete mapping unchanged, and
the two lookup-equal clients `ppA`/`ppB` agree on a concrete
`verifyResponse` call. -/
theorem C9_trust_store_immutable_exact_lookup_witness :
    (PaymentProtocol.create [] [("key1", keyMain)]).trustedKeys = [("key1", keyMain)] ∧
    verifyResponse ppA secpAccept urlMain bodyMain (some headersMain) true false =
      verifyResponse ppB secpAccept urlMain bodyMain (some headersMain) true false := by
  obtain ⟨hc, hext⟩ := C9_trust_store_immutable_exact_lookup
  exact ⟨hc [] [("key1", keyMain)],
    (hext ppA ppB ppAB_lookup_agree).1 secpAccept urlMain bodyMain (some headersMain)
      true false⟩

/-- C1: soundness of the non-bypass path — whenever `verifyResponse` with
`bypass = false` returns a value, every check has passed: the body parsed as
JSON, the digest header's hash component equals the SHA-256 hex of the raw
body, the request hostname is in the matched trusted key's domains, the
declared network is in its networks when `checkNetwork` is set, the
signature oracle accepted the signature under the key's public key, and the
returned value is exactly the request URL, the parsed body, and the trusted
key looked up under the `x-identity` header. -/
theorem C1_success_implies_all_checks (pp : PaymentProtocol) (secpVerify : SecpVerify)
    (requestUrl rawBody : String) (headers : Option Headers) (checkNetwork : Bool)
    (v : VerifiedResponse)
    (h : verifyResponse pp secpVerify requestUrl rawBody headers checkNetwork false = .ok v) :
    jsonParse rawBody = some v.responseData ∧
    v.requestUrl = requestUrl ∧
    ∃ (hs : Headers) (d sg idv host : String) (keyData : KeyData),
      headers = some hs ∧
      hGet hs "digest" = some (.str d) ∧
      (jsSplitEq d).get? 1 = some (sha256HexOfString rawBody) ∧
      hGet hs "x-signature-type" = some (.str "ecc") ∧
      hGet hs "signature" = some (.str sg) ∧
      hGet hs "x-identity" = some (.str idv) ∧
      lookupKey pp.trustedKeys idv = some keyData ∧
      v.keyData = some keyData ∧
      (urlParse requestUrl).hostname = some host ∧
      keyData.domains.contains host = true ∧
      (checkNetwork = true → jsIncludes keyData.networks (jsGet v.responseData "network") = true) ∧
      secpVerify (hexDecode (sha256HexOfString rawBody)) (hexDecode sg)
        (hexDecode keyData.publicKey) = true := by
  simp only [verifyResponse] at h
  by_cases hu : requestUrl = ""
  · rw [if_pos hu] at h; exact Except.noConfusion h
  rw [if_neg hu] at h
  by_cases hb : rawBody = ""
  · rw [if_pos hb] at h; exact Except.noConfusion h
  rw [if_neg hb] at h
  rcases headers with _ | hs
  · exact Except.noConfusion h
  simp only [] at h
  rcases hj : jsonParse rawBody with _ | j
  · rw [hj] at h; exact Except.noConfusion h
  simp only [hj] at h
  rw [if_neg (by decide : ¬(false = true))] at h
  rcases hd : hGet hs "digest" with _ | (d | tr)
  · rw [hd] at h; exact Except.noConfusion h
  swap
  · rw [hd] at h; exact Except.noConfusion h
  simp only [hd] at h
  rcases hhost : (urlParse requestUrl).hostname with _ | host
  · rw [hhost] at h; exact Except.noConfusion h
  simp only [hhost] at h
  by_cases hhe : host = ""
  · rw [if_pos hhe] at h; exact Except.noConfusion h
  rw [if_neg hhe] at h
  by_cases hty : optTruthy (hGet hs "x-signature-type") = true
  swap
  · rw [if_pos hty] at h; exact Except.noConfusion h
  rw [if_neg (not_not_intro hty)] at h
  rcases hst : hGet hs "x-signature-type" with _ | (st | tr2)
  · rw [hst] at h; exact Except.noConfusion h
  swap
  · rw [hst] at h; exact Except.noConfusion h
  simp only [hst] at h
  by_cases hstE : st = "ecc"
  swap
  · rw [if_pos hstE] at h; exact Except.noConfusion h
  rw [if_neg (not_not_intro hstE)] at h
  subst hstE
  by_cases hty2 : optTruthy (hGet hs "signature") = true
  swap
  · rw [if_pos hty2] at h; exact Except.noConfusion h
  rw [if_neg (not_not_intro hty2)] at h
  rcases hsgE : hGet hs "signature" with _ | (sg | tr3)
  · rw [hsgE] at h; exact Except.noConfusion h
  swap
  · rw [hsgE] at h; exact Except.noConfusion h
  simp only [hsgE] at h
  by_cases hty3 : optTruthy (hGet hs "x-identity") = true
  swap
  · rw [if_pos hty3] at h; exact Except.noConfusion h
  rw [if_neg (not_not_intro hty3)] at h
  rcases hid : hGet hs "x-identity" with _ | (idv | tr4)
  · rw [hid] at h; exact Except.noConfusion h
  swap
  · rw [hid] at h; exact Except.noConfusion h
  simp only [hid] at h
  rcases hkey : lookupKey pp.trustedKeys idv with _ | keyData
  · rw [hkey] at h; exact Except.noConfusion h
  simp only [hkey] at h
  rcases hhash : (jsSplitEq d).get? 1 with _ | hashStr
  · rw [hhash] at h; exact Except.noConfusion h
  simp only [hhash] at h
  by_cases hEq : hashStr = sha256HexOfString rawBody
  swap
  · rw [if_pos hEq] at h; exact Except.noConfusion h
  rw [if_neg (not_not_intro hEq)] at h
  subst hEq
  by_cases hdom : keyData.domains.contains host = true
  swap
  · rw [if_pos hdom] at h; exact Except.noConfusion h
  rw [if_neg (not_not_intro hdom)] at h
  by_cases hnet : checkNetwork = true ∧ ¬jsIncludes keyData.networks (jsGet j "network") = true
  · rw [if_pos hnet] at h; exact Except.noConfusion h
  rw [if_neg hnet] at h
  by_cases hsv : secpVerify (hexDecode (sha256HexOfString rawBody)) (hexDecode sg)
      (hexDecode keyData.publicKey) = true
  swap
  · rw [if_pos hsv] at h; exact Except.noConfusion h
  rw [if_neg (not_not_intro hsv)] at h
  cases h
  refine ⟨rfl, rfl, hs, d, sg, idv, host, keyData, rfl, hd, hhash, hst, hsgE, hid, hkey,
    rfl, rfl, hdom, ?_, hsv⟩
  intro hck
  by_contra hx
  exact hnet ⟨hck, hx⟩

/-- C1 witness: the soundness conclusions at a concrete successful call —
correct digest for `bodyMain`, trusted domain and network, accepting
signature oracle. -/
theorem C1_success_implies_all_checks_witness :
    jsonParse bodyMain = some jsonMain ∧
    urlMain = urlMain ∧
    ∃ (hs : Headers) (d sg idv host : String) (keyData : KeyData),
      (some headersMain : Option Headers) = some hs ∧
      hGet hs "digest" = some (.str d) ∧
      (jsSplitEq d).get? 1 = some (sha256HexOfString bodyMain) ∧
      hGet hs "x-signature-type" = some (.str "ecc") ∧
      hGet hs "signature" = some (.str sg) ∧
      hGet hs "x-identity" = some (.str idv) ∧
      lookupKey ppMain.trustedKeys idv = some keyData ∧
      (some keyMain : Option KeyData) = some keyData ∧
      (urlParse urlMain).hostname = some host ∧
      keyData.domains.contains host = true ∧
      (true = true → jsIncludes keyData.networks (jsGet jsonMain "network") = true) ∧
      secpAccept (hexDecode (sha256HexOfString bodyMain)) (hexDecode sg)
        (hexDecode keyData.publicKey) = true :=
  C1_success_implies_all_checks ppMain secpAccept urlMain bodyMain (some headersMain) true
    ⟨urlMain, jsonMain, some keyMain⟩ rfl

/-- C2 counterexample: with a header map carrying a valid signature,
signature type, and identity but no `digest` entry, `verifyResponse` fails
with the raw JS `TypeError` raised by `headers.digest.split('=')` — an
unrelated exception that names no header — not with a distinct error naming
the `digest` header. -/
theorem C2_counterexample_missing_digest_is_typeerror :
    verifyResponse ppMain secpAccept urlMain bodyMain (some headersNoDigest) false false =
      .error (.typeError "Cannot read properties of undefined (reading 'split')") ∧
    namesHeader (.typeError "Cannot read properties of undefined (reading 'split')")
      "digest" = false :=
  ⟨rfl, rfl⟩

/-- C2 amended: for the `signature`, `x-signature-type` and `x-identity`
headers, a missing value (or a falsy non-string one) yields the distinct
missing-header error and a truthy non-string value the distinct
invalid-header error, each naming that header (the identity error is
literally `Invalid identity header`); the `digest` header, by contrast, is
read unconditionally before any check, so a missing or non-string digest
raises the corresponding JS `TypeError` rather than an error naming the
digest header. -/
theorem C2_amended_header_errors (pp : PaymentProtocol) (secpVerify : SecpVerify)
    (requestUrl rawBody : String) (hs : Headers) (checkNetwork : Bool) (j : Json)
    (host : String)
    (hu : requestUrl ≠ "") (hb : rawBody ≠ "") (hj : jsonParse rawBody = some j) :
    (hGet hs "digest" = none →
      verifyResponse pp secpVerify requestUrl rawBody (some hs) checkNetwork false =
        .error (.typeError "Cannot read properties of undefined (reading 'split')")) ∧
    (∀ tr, hGet hs "digest" = some (.other tr) →
      verifyResponse pp secpVerify requestUrl rawBody (some hs) checkNetwork false =
        .error (.typeError "headers.digest.split is not a function")) ∧
    (∀ d, hGet hs "digest" = some (.str d) →
      (urlParse requestUrl).hostname = some host → host ≠ "" →
      ((hGet hs "x-signature-type" = none →
        verifyResponse pp secpVerify requestUrl rawBody (some hs) checkNetwork false =
          .error (.missingHeader "x-signature-type")) ∧
       (hGet hs "x-signature-type" = some (.other false) →
        verifyResponse pp secpVerify requestUrl rawBody (some hs) checkNetwork false =
          .error (.missingHeader "x-signature-type")) ∧
       (hGet hs "x-signature-type" = some (.other true) →
        verifyResponse pp secpVerify requestUrl rawBody (some hs) checkNetwork false =
          .error (.invalidHeader "x-signature-type")) ∧
       (hGet hs "x-signature-type" = some (.str "ecc") →
         ((hGet hs "signature" = none →
           verifyResponse pp secpVerify requestUrl rawBody (some hs) checkNetwork false =
             .error (.missingHeader "signature")) ∧
          (hGet hs "signature" = some (.other false) →
           verifyResponse pp secpVerify requestUrl rawBody (some hs) checkNetwork false =
             .error (.missingHeader "signature")) ∧
          (hGet hs "signature" = some (.other true) →
           verifyResponse pp secpVerify requestUrl rawBody (some hs) checkNetwork false =
             .error (.invalidHeader "signature")) ∧
          (∀ sg, hGet hs "signature" = some (.str sg) → sg ≠ "" →
            ((hGet hs "x-identity" = none →
              verifyResponse pp secpVerify requestUrl rawBody (some hs) checkNetwork false =
                .error (.missingHeader "x-identity")) ∧
             (hGet hs "x-identity" = some (.other false) →
              verifyResponse pp secpVerify requestUrl rawBody (some hs) checkNetwork false =
                .error (.missingHeader "x-identity")) ∧
             (hGet hs "x-identity" = some (.other true) →
              verifyResponse pp secpVerify requestUrl rawBody (some hs) checkNetwork false =
                .error (.invalidHeader "identity")))))))) := by
  refine ⟨fun hd => by simp [verifyResponse, hu, hb, hj, hd],
    fun tr hd => by simp [verifyResponse, hu, hb, hj, hd],
    fun d hd hhost hhostne => ⟨fun hty => ?_, fun hty => ?_, fun hty => ?_,
      fun hst => ⟨fun hsg => ?_, fun hsg => ?_, fun hsg => ?_,
      fun sg hsg hsgne => ⟨fun hidv => ?_, fun hidv => ?_, fun hidv => ?_⟩⟩⟩⟩ <;>
    simp [verifyResponse, hu, hb, hj, hd, hhost, hhostne, optTruthy, hvalTruthy, *]

/-- C2 witness: the amended behaviour at concrete calls — an empty header
map raises the TypeError, and a truthy non-string `signature` header yields
the invalid-header error naming `signature`. -/
theorem C2_amended_header_errors_witness :
    (verifyResponse ppMain secpAccept urlMain bodyMain (some []) false false =
      .error (.typeError "Cannot read properties of undefined (reading 'split')")) ∧
    (verifyResponse ppMain secpAccept urlMain bodyMain
        (some [("digest", .str "sha-256=xx"), ("x-signature-type", .str "ecc"),
               ("signature", .other true)]) false false =
      .error (.invalidHeader "signature")) := by
  constructor
  · exact (C2_amended_header_errors ppMain secpAccept urlMain bodyMain [] false jsonMain
      "merchant.example" (by decide) (by decide) rfl).1 rfl
  · exact ((((C2_amended_header_errors ppMain secpAccept urlMain bodyMain
      [("digest", .str "sha-256=xx"), ("x-signature-type", .str "ecc"),
       ("signature", .other true)] false jsonMain
      "merchant.example" (by decide) (by decide) rfl).2.2 "sha-256=xx" rfl rfl
      (by decide)).2.2.2 rfl).2.2.1 rfl)

/-- C3 counterexample: with headers correctly computed for the body
`\x7b\x7d` (the call on the original body succeeds), changing exactly one
byte of the body to get `(\x7d` makes the body unparsable, and
`verifyResponse` fails with the JSON-parse error — not with the
digest-mismatch error the claim requires. -/
theorem C3_counterexample_flip_breaks_parse :
    verifyResponse ppMain secpAccept urlMain "\x7b\x7d" (some headersBraces) false false =
      .ok ⟨urlMain, Json.obj [], some keyMain⟩ ∧
    oneByteFlip (strBytes "\x7b\x7d") (strBytes "(\x7d") = true ∧
    verifyResponse ppMain secpAccept urlMain "(\x7d" (some headersBraces) false false =
      .error .invalidJsonBody ∧
    isDigestMismatch (.error .invalidJsonBody) = false :=
  ⟨rfl, by decide, rfl, rfl⟩

/-- C3 amended: flipping one byte of the body while keeping headers makes
`verifyResponse` fail, provided the two bodies' SHA-256 digests differ (for
equal digests — a SHA-256 collision, conjectured impossible — the digest
check cannot distinguish the bodies): with the JSON-parse error when the
flipped body no longer parses, and with the digest-mismatch error when it
still parses. -/
theorem C3_amended_flip_fails (pp : PaymentProtocol) (secpVerify : SecpVerify)
    (u rb rb2 : String) (hs : Headers) (ck : Bool)
    (d sg idv host : String) (keyData : KeyData)
    (hu : u ≠ "") (hb2 : rb2 ≠ "")
    (hflip : oneByteFlip (strBytes rb) (strBytes rb2) = true)
    (hd : hGet hs "digest" = some (.str d))
    (hhash : (jsSplitEq d).get? 1 = some (sha256HexOfString rb))
    (hst : hGet hs "x-signature-type" = some (.str "ecc"))
    (hsig : hGet hs "signature" = some (.str sg)) (hsg : sg ≠ "")
    (hid : hGet hs "x-identity" = some (.str idv)) (hidne : idv ≠ "")
    (hkey : lookupKey pp.trustedKeys idv = some keyData)
    (hhost : (urlParse u).hostname = some host) (hhostne : host ≠ "")
    (hne : sha256HexOfString rb2 ≠ sha256HexOfString rb) :
    (jsonParse rb2 = none →
      verifyResponse pp secpVerify u rb2 (some hs) ck false = .error .invalidJsonBody) ∧
    (∀ j2, jsonParse rb2 = some j2 →
      verifyResponse pp secpVerify u rb2 (some hs) ck false =
        .error (.digestMismatch (sha256HexOfString rb2) (some (sha256HexOfString rb)))) := by
  constructor
  · intro hp
    simp [verifyResponse, hu, hb2, hp]
  · intro j2 hp
    simp only [List.get?_eq_getElem?] at hhash
    simp [verifyResponse, hu, hb2, hp, hd, hhash, hst, hsig, hsg, hid, hidne, hkey,
      hhost, hhostne, optTruthy, hvalTruthy, Ne.symm hne]

/-- C3 witness: flipping the byte `0` of the body `[0]` to get `[1]` (still
valid JSON) under headers correctly computed for `[0]` fails with exactly
the digest-mismatch error. -/
theorem C3_amended_flip_fails_witness :
    oneByteFlip (strBytes "[0]") (strBytes "[1]") = true ∧
    verifyResponse ppMain secpAccept urlMain "[1]" (some headersBracketZero) false false =
      .error (.digestMismatch (sha256HexOfString "[1]") (some (sha256HexOfString "[0]"))) :=
  ⟨by decide,
   (C3_amended_flip_fails ppMain secpAccept urlMain "[0]" "[1]" headersBracketZero false
      "sha-256=d0bca111f8628137adc4c16f123496dcdd1d590d06cb5d9acd68b39fe656fb97"
      "3044aabb" "key1" "merchant.example" keyMain
      (by decide) (by decide) (by decide) rfl (by decide) rfl rfl (by decide) rfl
      (by decide) rfl rfl (by decide) (by decide)).2 (Json.arr [Json.num 1]) rfl⟩
